import Mathlib

/-!
Verification of the gitagent trigger engine, template file inclusion,
status-check resolution, discovery cache and branch-automation workflow,
shallowly embedded from the Python sources
(`src/gitagent/agent_manager.py`, `src/gitagent/git_operations.py`,
`src/github_action_handler/template_functions.py`).

External effects (the filesystem, git subprocesses, the GitHub API, jinja2
rendering and Python `eval`) are passed in as explicit oracle values; the
pure decision logic is translated function by function from the source.
-/

namespace Gitagent

/-! ## fnmatch — shell-style glob matching

Model of Python `fnmatch.fnmatch(name, pattern)` on POSIX (where
`os.path.normcase` is the identity, so matching is case sensitive):
`*` matches any run of characters (including `/`), `?` one character,
`[seq]` a character of the class (ranges `a-b` allowed, leading `!`
negates, a `]` right after the opening is literal); a `[` with no
closing `]` is a literal `[`. -/

/-- Scan a character-class body up to the closing `]`; returns the class
content and the rest of the pattern, or `none` when `]` never comes. -/
def findClose (acc : List Char) : List Char → Option (List Char × List Char)
  | [] => none
  | ']' :: rest => some (acc.reverse, rest)
  | c :: rest => findClose (c :: acc) rest

/-- Parse `[...]` after the opening bracket: negation flag, class content,
rest of the pattern (mirrors `fnmatch.translate`'s bracket handling). -/
def parseClass (cs : List Char) : Option (Bool × List Char × List Char) :=
  let p := match cs with
    | '!' :: rest => (true, rest)
    | _ => (false, cs)
  match p.2 with
  | ']' :: rest => (findClose [']'] rest).map (fun q => (p.1, q.1, q.2))
  | other => (findClose [] other).map (fun q => (p.1, q.1, q.2))

/-- Does character `c` belong to the class content (with `a-b` ranges)? -/
def classMatches : List Char → Char → Bool
  | a :: '-' :: b :: rest, c =>
      (a ≤ c && c ≤ b) || classMatches rest c
  | a :: rest, c => a == c || classMatches rest c
  | [], _ => false

/-- Glob matcher over character lists, structurally recursive on a fuel
counter so that it reduces inside the kernel.  Every recursive call strictly
decreases `p.length + s.length` (the `*` branch drops either the `*` or one
character of `s`; `parseClass` always consumes at least the closing `]`),
so with the initial fuel of `globMatch` the `0` case is never reached. -/
def globMatchF : Nat → List Char → List Char → Bool
  | 0, p, s => p.isEmpty && s.isEmpty
  | fuel + 1, p, s =>
    match p, s with
    | [], [] => true
    | [], _ :: _ => false
    | '*' :: p', s =>
        globMatchF fuel p' s ||
          (match s with
           | [] => false
           | _ :: s' => globMatchF fuel ('*' :: p') s')
    | '?' :: _, [] => false
    | '?' :: p', _ :: s' => globMatchF fuel p' s'
    | '[' :: p', s =>
        match parseClass p' with
        | some q =>
            (match s with
             | [] => false
             | c :: s' =>
                 (if q.1 then !(classMatches q.2.1 c) else classMatches q.2.1 c)
                   && globMatchF fuel q.2.2 s')
        | none =>
            (match s with
             | [] => false
             | c :: s' => (c == '[') && globMatchF fuel p' s')
    | _ :: _, [] => false
    | a :: p', c :: s' => (a == c) && globMatchF fuel p' s'

/-- Glob matcher over character lists: pattern against string. -/
def globMatch (p : List Char) (s : List Char) : Bool :=
  globMatchF (p.length + s.length + 1) p s

/-- Python `fnmatch.fnmatch(name, pattern)` (POSIX, case sensitive). -/
def fnmatch (name pattern : String) : Bool :=
  globMatch pattern.data name.data

/-- Is `sub` a contiguous sublist of `s`? -/
def isSubList (sub : List Char) : List Char → Bool
  | [] => sub.isEmpty
  | c :: rest => sub.isPrefixOf (c :: rest) || isSubList sub rest

/-- Python `sub in s` — substring containment. -/
def containsSub (s sub : String) : Bool :=
  isSubList sub.data s.data

/-- One left-to-right scan of Python `str.replace(old, new)` over character
lists, structurally recursive on a fuel counter so that it reduces inside
the kernel; each step consumes at least one character of `l`, so fuel
`l.length` always suffices (`old` is never empty at any call site). -/
def replaceF : Nat → List Char → List Char → List Char → List Char
  | 0, _, _, l => l
  | _ + 1, _, _, [] => []
  | fuel + 1, old, new, c :: rest =>
    if !old.isEmpty && old.isPrefixOf (c :: rest) then
      new ++ replaceF fuel old new ((c :: rest).drop old.length)
    else
      c :: replaceF fuel old new rest

/-- Python `s.replace(old, new)`: every occurrence replaced, left to right,
non-overlapping.  (Kernel-computable stand-in for `String.replace`.) -/
def strReplace (s old new : String) : String :=
  ⟨replaceF s.data.length old.data new.data s.data⟩

/-- Python `s.startswith(pre)`. -/
def strStartsWith (s pre : String) : Bool :=
  pre.data.isPrefixOf s.data

/-- Python `s.lower()` (ASCII range; the keywords and outputs compared in
the source are ASCII). -/
def strToLower (s : String) : String :=
  ⟨s.data.map Char.toLower⟩

/-- Python `s.strip()`: leading and trailing whitespace removed. -/
def strTrim (s : String) : String :=
  ⟨(((s.data.dropWhile Char.isWhitespace).reverse.dropWhile Char.isWhitespace).reverse)⟩

/-- Number of occurrences of a (non-empty) `sub` in `l`, counted at every
starting position. -/
def countSubList (sub : List Char) : List Char → Nat
  | [] => 0
  | c :: rest => (if sub.isPrefixOf (c :: rest) then 1 else 0) + countSubList sub rest

/-- Number of occurrences of non-empty `sub` inside `s`. -/
def countSub (s sub : String) : Nat :=
  countSubList sub.data s.data

/-! ## Data model for trigger evaluation (`models.AgentTriggerCondition`,
`models.GitHubEvent`, `models.FileChange`)

Optional list fields are modelled as plain lists: Python truthiness makes
`None` and `[]` behave identically in every use inside
`AgentManager._should_run_agent`.  `files_changed_min`/`files_changed_max`
stay `Option Nat` because `Some 0` and `None` are both falsy in Python but
print differently; truthiness is modelled by `optNatTruthy`. -/

structure TriggerCond where
  branches : List String := []
  tags : List String := []
  paths : List String := []
  conditions : List String := []
  event_actions : List String := []
  files_changed_min : Option Nat := none
  files_changed_max : Option Nat := none
  files_changed : List String := []
deriving Repr, DecidableEq

/-- The per-commit file lists a push event carries
(`commit.get('added'/'removed'/'modified', [])`). -/
structure CommitFiles where
  added : List String := []
  removed : List String := []
  modified : List String := []
deriving Repr, DecidableEq

/-- The slice of `GitHubEvent` that `_should_run_agent` reads. -/
structure EventModel where
  action : Option String := none
  commits : Option (List CommitFiles) := none
deriving Repr, DecidableEq

/-- The slice of `FileChange` that `_should_run_agent` reads. -/
structure FileChangeModel where
  filename : String
deriving Repr, DecidableEq

/-- Python truthiness of an `Optional[int]`: `None` and `0` are falsy. -/
def optNatTruthy : Option Nat → Bool
  | none => false
  | some n => n != 0

/-- Python truthiness of an `Optional[str]`: `None` and `""` are falsy. -/
def optStrTruthy : Option String → Bool
  | none => false
  | some s => s != ""

/-- Python truthiness of `event.commits`: `None` and `[]` are falsy. -/
def commitsTruthy : Option (List CommitFiles) → Bool
  | none => false
  | some l => !l.isEmpty

/-! ## `AgentManager._should_run_agent`
(`src/gitagent/agent_manager.py`, lines 270–369)

Each `if ...: return False` block of the Python becomes one category
checker returning `false` exactly when that block returns false; the whole
function is their conjunction (the Python's early `return False` chain).
`condEval` is the oracle for one template condition: jinja2 render of the
condition plus `eval(result.strip())` truthiness — `.error` when rendering,
parsing or evaluation raises, `.ok b` for a result of truthiness `b`. -/

/-- Branch-pattern block (lines 282–286): note the ref is NOT required to
start with `refs/heads/`; `str.replace` removes every occurrence. -/
def branch_check (tr : TriggerCond) (ref : String) : Bool :=
  if !tr.branches.isEmpty && ref != "" then
    tr.branches.any (fun pat => fnmatch (strReplace ref "refs/heads/" "") pat)
  else true

/-- Tag-pattern block (lines 288–296): a non-tag ref fails, but only when
the ref is non-empty (Python truthiness guards the whole block). -/
def tag_check (tr : TriggerCond) (ref : String) : Bool :=
  if !tr.tags.isEmpty && ref != "" then
    if strStartsWith ref "refs/tags/" then
      tr.tags.any (fun pat => fnmatch (strReplace ref "refs/tags/" "") pat)
    else false
  else true

/-- Event-action block (lines 298–301). -/
def action_check (tr : TriggerCond) (ev : EventModel) : Bool :=
  if !tr.event_actions.isEmpty && optStrTruthy ev.action then
    tr.event_actions.contains (ev.action.getD "")
  else true

/-- Total added+removed+modified files across the event's commits. -/
def totalFilesChanged (commits : List CommitFiles) : Nat :=
  commits.foldl
    (fun acc c => acc + (c.added.length + c.removed.length + c.modified.length)) 0

/-- File-count block (lines 303–316): only runs when the commit list is
present and non-empty, and a bound of 0 is falsy hence ignored. -/
def count_check (tr : TriggerCond) (ev : EventModel) : Bool :=
  if commitsTruthy ev.commits then
    let total := totalFilesChanged (ev.commits.getD [])
    if optNatTruthy tr.files_changed_min && total < tr.files_changed_min.getD 0 then
      false
    else if optNatTruthy tr.files_changed_max && total > tr.files_changed_max.getD 0 then
      false
    else true
  else true

/-- Path-pattern block (lines 318–331). -/
def paths_check (tr : TriggerCond) (ev : EventModel) : Bool :=
  if !tr.paths.isEmpty && commitsTruthy ev.commits then
    let changedFiles :=
      (ev.commits.getD []).flatMap (fun c => c.added ++ c.removed ++ c.modified)
    changedFiles.any (fun f => tr.paths.any (fun pat => fnmatch f pat))
  else true

/-- Explicit file-pattern block (lines 333–342). -/
def files_check (tr : TriggerCond) (fileChanges : List FileChangeModel) : Bool :=
  if !tr.files_changed.isEmpty && !fileChanges.isEmpty then
    fileChanges.any (fun fc => tr.files_changed.any (fun pat => fnmatch fc.filename pat))
  else true

/-- Template-condition block (lines 344–367): the loop returns false at the
first condition that evaluates falsy or raises, so the block passes iff
every condition evaluates to truthy. -/
def conds_check (conds : List String) (condEval : String → Except String Bool) : Bool :=
  conds.all (fun c =>
    match condEval c with
    | .ok b => b
    | .error _ => false)

/-- `AgentManager._should_run_agent(agent, event, github_context,
commit_history, file_changes)`: the conjunction of the category blocks in
source order (the Python returns false at the first failing block and true
at the end).  `ref` is `github_context.ref`.  Rendering or evaluating a
condition never propagates an exception out of this function: the
`.error` branch of the oracle is handled inside `conds_check`. -/
def should_run_agent (tr : TriggerCond) (ev : EventModel) (ref : String)
    (fileChanges : List FileChangeModel)
    (condEval : String → Except String Bool) : Bool :=
  branch_check tr ref &&
  tag_check tr ref &&
  action_check tr ev &&
  count_check tr ev &&
  paths_check tr ev &&
  files_check tr fileChanges &&
  conds_check tr.conditions condEval

/-! ## `AgentManager._handle_status_check` — state resolution
(`src/gitagent/agent_manager.py`, lines 846–863)

Only the pure keyword-scanning part is embedded; posting the status is a
network call to the GitHub API collaborator. -/

/-- The state posted for a `status_check` destination: starts `"success"`;
any configured failure keyword occurring (case-insensitively) in the output
flips it to `"failure"`; when it is still `"success"` and success keywords
are configured but none occurs, it becomes `"error"`.  The keyword test is
Python `keyword.lower() in output.lower()`. -/
def determine_status_state (failureOn successOn : List String) (output : String) : String :=
  let state :=
    if !failureOn.isEmpty
        && failureOn.any (fun k => containsSub (strToLower output) (strToLower k)) then
      "failure"
    else "success"
  if state == "success" && !successOn.isEmpty then
    if successOn.any (fun k => containsSub (strToLower output) (strToLower k)) then
      state
    else "error"
  else state

/-! ## Agent-discovery cache
(`src/gitagent/agent_manager.py`: `_is_cache_valid` lines 212–217,
`discover_agents` lines 94–139)

The cache is one dictionary plus ONE timestamp for the whole manager
(`self._agent_cache`, `self._cache_timestamp`); agents are abstracted to
opaque ids (`Nat`), time to `Int` (`time.time()` is passed in as `now`).
The filesystem scan of `discover_agents` is external: `dirExists` and
`fresh` stand for `agents_dir.exists()` and the loaded definitions. -/

/-- The mutable cache state of one `AgentManager`. -/
structure AgentCache where
  cache : List (String × List Nat)
  timestamp : Int
  ttl : Int
deriving Repr, DecidableEq

/-- Python dict membership `cache_key in self._agent_cache`. -/
def cacheHasKey (c : List (String × List Nat)) (key : String) : Bool :=
  c.any (fun kv => kv.1 == key)

/-- Python `self._agent_cache.get(cache_key, [])`. -/
def cacheGet (c : List (String × List Nat)) (key : String) : List Nat :=
  ((c.find? (fun kv => kv.1 == key)).map (fun kv => kv.2)).getD []

/-- Python dict assignment `self._agent_cache[cache_key] = agents`. -/
def cacheSet (c : List (String × List Nat)) (key : String) (v : List Nat) :
    List (String × List Nat) :=
  if cacheHasKey c key then
    c.map (fun kv => if kv.1 == key then (key, v) else kv)
  else c ++ [(key, v)]

/-- `AgentManager._is_cache_valid(cache_key)` at wall-clock time `now`:
the key must be cached AND the time since the single shared timestamp —
the moment of the most recent store for ANY key — must be below the TTL. -/
def is_cache_valid (st : AgentCache) (now : Int) (key : String) : Bool :=
  if !cacheHasKey st.cache key then false
  else now - st.timestamp < st.ttl

/-- `AgentManager.discover_agents(event_type, workspace_path)` reduced to
its cache behaviour: serve from the cache when `_is_cache_valid`; return
empty without caching when the agents directory is missing; otherwise
store the freshly loaded list and overwrite the shared timestamp with
`now`.  Returns (result, new cache state). -/
def discover_agents (st : AgentCache) (now : Int) (key : String)
    (dirExists : Bool) (fresh : List Nat) : List Nat × AgentCache :=
  if is_cache_valid st now key then
    (cacheGet st.cache key, st)
  else if !dirExists then
    ([], st)
  else
    (fresh, { st with cache := cacheSet st.cache key fresh, timestamp := now })

/-! ## `TemplateFileIncluder`
(`src/github_action_handler/template_functions.py`, lines 19–220)

The workspace filesystem is an explicit association list from
workspace-relative path to read outcome: `.ok content` for a readable
file, `.error msg` for a file whose `open`/`read` raises.  A path not in
the list does not exist.  `glob.glob` is modelled for patterns without
wildcard metacharacters (the shape every claim exercises): such a pattern
names one file and matches exactly when that file exists. -/

/-- A workspace: relative path ↦ result of reading the file. -/
abbrev WorkspaceFS := List (String × Except String String)

/-- Does the path name an existing regular file? -/
def fileExists (fs : WorkspaceFS) (p : String) : Bool :=
  fs.any (fun kv => kv.1 == p)

/-- `TemplateFileIncluder._read_file_content` through the `open` oracle. -/
def readFile (fs : WorkspaceFS) (p : String) : Except String String :=
  ((fs.find? (fun kv => kv.1 == p)).map (fun kv => kv.2)).getD (.error "No such file")

/-- `Path(f).parent` of a relative path, rendered as the source renders it:
`"."` for a file in the root. -/
def parentDir (f : String) : String :=
  match (f.splitOn "/").dropLast with
  | [] => "."
  | parts => String.intercalate "/" parts

/-- `TemplateFileIncluder.changed_file_dirs` (lines 34–47): the parent of
each changed file when it is not the root, plus the root — but only when
there is at least one changed file (the `dirs.add(Path('.'))` sits inside
the loop). -/
def changed_file_dirs (files : List String) : List String :=
  (files.flatMap (fun f =>
    (if parentDir f != "." then [parentDir f] else []) ++ ["."])).eraseDups

/-- All strict ancestors of a relative directory path given as segments,
innermost first, ending with the root `"."`. -/
def ancestorsOfSegs : List String → List String
  | [] => []
  | [_] => ["."]
  | a :: b :: rest =>
      String.intercalate "/" ((a :: b :: rest).dropLast)
        :: ancestorsOfSegs ((a :: b :: rest).dropLast)
termination_by s => s.length
decreasing_by simp [List.length_dropLast]

/-- `TemplateFileIncluder.changed_file_dirs_and_ancestors` (lines 49–73):
each changed-file directory with all its ancestors up to the root, plus
the root itself. -/
def changed_file_dirs_and_ancestors (files : List String) : List String :=
  ((changed_file_dirs files).flatMap
      (fun d => d :: ancestorsOfSegs (d.splitOn "/")) ++ ["."]).eraseDups

/-- `TemplateFileIncluder._resolve_pattern_variables` (lines 133–173): the
`elif` chain substituting exactly one symbolic token, one resolved pattern
per substitution. -/
def resolve_pattern_variables (workspace : String) (changedFiles : List String)
    (pattern : String) : List String :=
  if containsSub pattern "$ALL_UNIQUE_CHANGED_FILE_DIRS_AND_THEIR_ANCESTORS" then
    (changed_file_dirs_and_ancestors changedFiles).map
      (fun d => strReplace pattern "$ALL_UNIQUE_CHANGED_FILE_DIRS_AND_THEIR_ANCESTORS" d)
  else if containsSub pattern "$ALL_UNIQUE_CHANGED_FILE_DIRS" then
    (changed_file_dirs changedFiles).map
      (fun d => strReplace pattern "$ALL_UNIQUE_CHANGED_FILE_DIRS" d)
  else if containsSub pattern "$WORKSPACE" then
    [strReplace pattern "$WORKSPACE" workspace]
  else if containsSub pattern "$CHANGED_FILES" then
    changedFiles.map (fun f => strReplace pattern "$CHANGED_FILES" f)
  else
    [pattern]

/-- `TemplateFileIncluder._find_matching_files` (lines 175–209) for
wildcard-free patterns: each resolved pattern contributes the named file
when it exists; the Python `set` collapses duplicates. -/
def find_matching_files (fs : WorkspaceFS) (pats : List String) : List String :=
  (pats.filterMap (fun p => if fileExists fs p then some p else none)).eraseDups

/-- Lexicographic `≤` on character lists, by code point. -/
def listLexLe : List Char → List Char → Bool
  | [], _ => true
  | _ :: _, [] => false
  | a :: as, b :: bs =>
      if a < b then true else if b < a then false else listLexLe as bs

/-- Python string comparison `a <= b`: lexicographic by code point.
(Kernel-computable stand-in for `String.le`.) -/
def strLe (a b : String) : Bool :=
  listLexLe a.data b.data

/-- Insert into a `strLe`-sorted list of strings, keeping it sorted. -/
def insertSorted (x : String) : List String → List String
  | [] => [x]
  | y :: ys => if strLe x y then x :: y :: ys else y :: insertSorted x ys

/-- Python `sorted` on relative paths (lexicographic string order). -/
def sortStrings (l : List String) : List String :=
  l.foldr insertSorted []

/-- The lines one matched file contributes to the combined content
(`include_files` lines 98–111): a readable file with non-whitespace
content yields its marker, its content and a separator line; a readable
whitespace-only file yields nothing; an unreadable file yields one inline
error comment. -/
def render_file_entry (fs : WorkspaceFS) (p : String) : List String :=
  match readFile fs p with
  | .ok content =>
      if strTrim content != "" then
        ["<!-- File: " ++ p ++ " -->", content, ""]
      else []
  | .error e =>
      ["<!-- Error reading file: " ++ p ++ " - " ++ e ++ " -->"]

/-- `TemplateFileIncluder.include_files(pattern)` (lines 75–131): resolve
the symbolic token, find the matching files, then emit the per-file blocks
in sorted order joined with newlines.  (The outer `try` of the source
catches exceptions of the Python machinery, which the total model cannot
raise.) -/
def include_files (fs : WorkspaceFS) (changedFiles : List String)
    (workspace : String) (pattern : String) : String :=
  let resolved := resolve_pattern_variables workspace changedFiles pattern
  let matching := find_matching_files fs resolved
  String.intercalate "\n" ((sortStrings matching).flatMap (render_file_entry fs))

/-! ## `BranchAutomationManager.execute_branch_workflow`
(`src/gitagent/git_operations.py`, lines 493–624)

Every git subprocess and API call is an oracle field of `WorkflowEnv`
(`.ok` = the Python call returns, `.error` = it raises).  The workflow
returns its Python return value as an `Except` (`.error` = the re-raised
exception) together with the trace of side-effecting operations it
attempted, in order.  `uuidSuffix` stands for the 8-hex-character suffix
of `generate_branch_name`; commit-message/PR-template rendering is not an
oracle because `_render_template` swallows every rendering error and falls
back to the raw template string, so it cannot raise. -/

/-- Side-effecting operations of the workflow, for the trace. -/
inductive GAction where
  | getCurrentBranch
  | createBranch (name base : String)
  | applyChanges
  | commit
  | push (name : String)
  | createPR (head base : String)
  | checkoutBase (base : String)
deriving Repr, DecidableEq

/-- The slice of `AgentBranchAutomation` the workflow control flow reads. -/
structure BranchCfg where
  enabled : Bool := false
  branchPref : String := "agent-fix"
  create_pull_request : Bool := false
  target_branch : Option String := none
deriving Repr, DecidableEq

/-- Oracles for the external calls of one workflow run. -/
structure WorkflowEnv where
  uuidSuffix : String
  getCurrentBranch : Except String String
  createBranch : Except String Unit
  applyChanges : Except String Unit
  commit : Except String String
  push : Except String Unit
  createPR : Except String (Nat × String)
  getCurrentBranchCleanup : Except String String
  checkoutBase : Except String Unit
deriving Repr

/-- The workflow's result triple `(branch_name, pr_number, pr_url)`. -/
abbrev WorkflowRes := Option String × Option Nat × Option String

/-- `generate_branch_name(prefix)` = `f"{prefix}-{suffix}"`. -/
def generate_branch_name (pre suffix : String) : String :=
  pre ++ "-" ++ suffix

/-- The `try` body of `execute_branch_workflow`: runs the steps in source
order, stopping at the first raising call.  Returns the body's outcome,
the trace so far, and `some base_branch` once `base_branch` was bound
(the cleanup handler needs to know, since a failure before the binding
makes the Python cleanup hit a `NameError` that its bare `except` then
swallows). -/
def runBody (cfg : BranchCfg) (env : WorkflowEnv) :
    Except String WorkflowRes × List GAction × Option String :=
  let branchName := generate_branch_name cfg.branchPref env.uuidSuffix
  match env.getCurrentBranch with
  | .error e => (.error e, [.getCurrentBranch], none)
  | .ok current =>
    let base := match cfg.target_branch with
      | some t => if t != "" then t else current
      | none => current
    let tr1 : List GAction := [.getCurrentBranch, .createBranch branchName base]
    match env.createBranch with
    | .error e => (.error e, tr1, some base)
    | .ok _ =>
      let tr2 := tr1 ++ [.applyChanges]
      match env.applyChanges with
      | .error e => (.error e, tr2, some base)
      | .ok _ =>
        let tr3 := tr2 ++ [.commit]
        match env.commit with
        | .error e => (.error e, tr3, some base)
        | .ok sha =>
          if sha == "" then
            (.ok (none, none, none), tr3, some base)
          else
            let tr4 := tr3 ++ [.push branchName]
            match env.push with
            | .error e => (.error e, tr4, some base)
            | .ok _ =>
              if cfg.create_pull_request then
                let tr5 := tr4 ++ [.createPR branchName base]
                match env.createPR with
                | .error e => (.error e, tr5, some base)
                | .ok pr => (.ok (some branchName, some pr.1, some pr.2), tr5, some base)
              else
                (.ok (some branchName, none, none), tr4, some base)

/-- `execute_branch_workflow`: disabled configs return all-`none` at once;
otherwise run the body and, should it raise, run the cleanup handler —
look up the current branch, and only when still on the new branch attempt
a checkout of the base branch, ignoring the checkout's own outcome — then
re-raise the original error. -/
def execute_branch_workflow (cfg : BranchCfg) (env : WorkflowEnv) :
    Except String WorkflowRes × List GAction :=
  if !cfg.enabled then
    (.ok (none, none, none), [])
  else
    let branchName := generate_branch_name cfg.branchPref env.uuidSuffix
    match runBody cfg env with
    | (.ok v, tr, _) => (.ok v, tr)
    | (.error e, tr, baseOpt) =>
      match env.getCurrentBranchCleanup with
      | .error _ => (.error e, tr ++ [.getCurrentBranch])
      | .ok cur =>
        if cur == branchName then
          match baseOpt with
          | none => (.error e, tr ++ [.getCurrentBranch])
          | some base => (.error e, tr ++ [.getCurrentBranch, .checkoutBase base])
        else
          (.error e, tr ++ [.getCurrentBranch])

/-- The slice of `AgentExecutionResult` that `execute_agent`'s
branch-automation block touches. -/
structure ExecResultModel where
  success : Bool
  metadataBranchAutomationError : Option String := none
  branch_created : Option String := none
  pr_created : Option Nat := none
  pr_url : Option String := none
deriving Repr, DecidableEq

/-- The `try`/`except` around the `execute_branch_workflow` call inside
`AgentManager.execute_agent` (lines 466–501): a successful workflow fills
the branch/PR fields of the result; a raising workflow only records the
error under `metadata['branch_automation_error']`, leaving the result's
success flag untouched. -/
def record_branch_automation (r : ExecResultModel)
    (wf : Except String WorkflowRes) : ExecResultModel :=
  match wf with
  | .ok v => { r with branch_created := v.1, pr_created := v.2.1, pr_url := v.2.2 }
  | .error e => { r with metadataBranchAutomationError := some e }

/-! ## Concrete fixtures used by witnesses, counterexamples and scenario
conjuncts. -/

/-- Branch automation enabled, with a pull request requested. -/
def cfgFix : BranchCfg :=
  { enabled := true, create_pull_request := true }

/-- A run in which every git call succeeds but nothing is staged:
`git diff --cached --name-only` is empty, so `commit_changes` returns `""`. -/
def envNothingStaged : WorkflowEnv :=
  { uuidSuffix := "deadbeef"
    getCurrentBranch := .ok "main"
    createBranch := .ok ()
    applyChanges := .ok ()
    commit := .ok ""
    push := .ok ()
    createPR := .ok (7, "https://example.invalid/pr/7")
    getCurrentBranchCleanup := .ok "main"
    checkoutBase := .ok () }

/-- A run in which the push is rejected while the workspace sits on the new
branch, and the rollback checkout itself also fails. -/
def envPushFail : WorkflowEnv :=
  { envNothingStaged with
    commit := .ok "abc1234"
    push := .error "push denied"
    getCurrentBranchCleanup := .ok "agent-fix-deadbeef"
    checkoutBase := .error "rollback checkout also fails" }

/-- Workspace for the C7 counterexample: both changed files exist, but
`a/b.py` is empty. -/
def fsEmptyFirst : WorkspaceFS :=
  [("a/b.py", .ok ""), ("c.py", .ok "y = 2\n")]

/-- Workspace for the C7 scenario conjuncts: both files non-empty. -/
def fsBothFull : WorkspaceFS :=
  [("a/b.py", .ok "x = 1\n"), ("c.py", .ok "y = 2\n")]

/-- Workspace for C10: a whitespace-only file next to a real one. -/
def fsWhitespaceFirst : WorkspaceFS :=
  [("a.py", .ok "  \n"), ("b.py", .ok "hi")]

/-- Cache state after a store for the push key at time 0 and a store for
the pull-request key at time 400, with the default 300-second TTL. -/
def cacheAfterTwoStores : AgentCache :=
  (discover_agents
    (discover_agents { cache := [], timestamp := 0, ttl := 300 }
      0 "push:/ws/.github/agents" true [1]).2
    400 "pull_request:/ws/.github/agents" true [2]).2

/-! # Theorems -/

/-- C1: For every agent with a non-empty template-condition list, if some
condition's render/parse/evaluation raises or its rendered text evaluates
to a falsy value (`condEval c ≠ .ok true`), then `_should_run_agent`
returns `false` — whatever the other trigger fields, the event, the ref or
the file changes.  Exceptions never propagate: the failure branch of the
oracle is consumed inside `conds_check`, and `should_run_agent` is a total
boolean function. -/
theorem c1_condition_failure_fail_closed :
    ∀ (tr : TriggerCond) (ev : EventModel) (ref : String)
      (fcs : List FileChangeModel) (condEval : String → Except String Bool),
      (∃ c ∈ tr.conditions, condEval c ≠ .ok true) →
      should_run_agent tr ev ref fcs condEval = false := by
  intro tr ev ref fcs condEval h
  obtain ⟨c, hc, hne⟩ := h
  have hfalse : conds_check tr.conditions condEval = false := by
    unfold conds_check
    rw [List.all_eq_false]
    refine ⟨c, hc, ?_⟩
    cases hcc : condEval c with
    | ok b =>
        cases b with
        | true => exact absurd hcc hne
        | false => simp
    | error _ => simp
  unfold should_run_agent
  rw [hfalse]
  simp

/-- C1 witness: a single raising condition forces `should_run_agent` to
`false` on a concrete agent and event. -/
theorem c1_condition_failure_witness :
    should_run_agent { conditions := ["{{ event.action }} == 1"] } {}
      "refs/heads/main" [] (fun _ => .error "SyntaxError") = false :=
  c1_condition_failure_fail_closed _ _ _ _ _
    ⟨"{{ event.action }} == 1", by simp, by simp⟩

/-- C2 counterexample: the ref `refs/tags/v1.0` is not of the form
`refs/heads/<name>`, yet with branch patterns `["*"]` configured (and no
other trigger field) `_should_run_agent` returns `true`: the code never
checks the `refs/heads/` prefix, it merely deletes every occurrence of it
before glob matching. -/
theorem c2_branch_glob_counterexample :
    strStartsWith "refs/tags/v1.0" "refs/heads/" = false ∧
    should_run_agent { branches := ["*"] } {} "refs/tags/v1.0" []
      (fun _ => .ok true) = true :=
  ⟨by decide, by decide⟩

/-- C2 (amended): the branch category never requires the ref to be of the
form `refs/heads/<name>`; it passes iff no branch patterns are configured,
or the ref is empty, or the ref with every occurrence of `refs/heads/`
removed matches at least one pattern.  The claim's concrete examples do
hold: patterns `["main","release/*"]` with ref `refs/heads/release/1.2`
give `true`, and with ref `refs/heads/dev` give `false`. -/
theorem c2_branch_glob_amended :
    (∀ (tr : TriggerCond) (ref : String),
        branch_check tr ref =
          (tr.branches.isEmpty || (ref == "") ||
            tr.branches.any (fun pat => fnmatch (strReplace ref "refs/heads/" "") pat))) ∧
    (∀ (tr : TriggerCond) (ev : EventModel) (ref : String)
        (fcs : List FileChangeModel) (ce : String → Except String Bool),
        branch_check tr ref = false →
        should_run_agent tr ev ref fcs ce = false) ∧
    should_run_agent { branches := ["main", "release/*"] } {}
      "refs/heads/release/1.2" [] (fun _ => .ok true) = true ∧
    should_run_agent { branches := ["main", "release/*"] } {}
      "refs/heads/dev" [] (fun _ => .ok true) = false := by
  refine ⟨?_, ?_, by decide, by decide⟩
  · intro tr ref
    unfold branch_check
    by_cases hr : ref = "" <;> cases hb : tr.branches.isEmpty <;> simp [hb, hr]
  · intro tr ev ref fcs ce hbr
    unfold should_run_agent
    rw [hbr]
    simp

/-- C3 counterexample: the empty ref does not start with `refs/tags/`, yet
with tag patterns `["v*"]` configured (and no other trigger field)
`_should_run_agent` returns `true`: the Python guard
`if triggers.tags and github_context.ref` skips the whole tag category for
a falsy (empty) ref. -/
theorem c3_tag_glob_counterexample :
    strStartsWith "" "refs/tags/" = false ∧
    should_run_agent { tags := ["v*"] } {} "" [] (fun _ => .ok true) = true :=
  ⟨by decide, by decide⟩

/-- C3 (amended): with tag patterns configured, a NON-EMPTY ref that does
not start with `refs/tags/` makes `_should_run_agent` return `false`
(an empty ref skips the category instead); a `refs/tags/...` ref passes
the category iff the ref with every occurrence of `refs/tags/` removed
matches at least one pattern.  In particular tag patterns with ref
`refs/heads/main` give `false` whatever the other trigger fields. -/
theorem c3_tag_glob_amended :
    (∀ (tr : TriggerCond) (ref : String),
        tag_check tr ref =
          (tr.tags.isEmpty || (ref == "") ||
            (strStartsWith ref "refs/tags/" &&
              tr.tags.any (fun pat => fnmatch (strReplace ref "refs/tags/" "") pat)))) ∧
    (∀ (tr : TriggerCond) (ev : EventModel) (ref : String)
        (fcs : List FileChangeModel) (ce : String → Except String Bool),
        tr.tags.isEmpty = false → ref ≠ "" →
        strStartsWith ref "refs/tags/" = false →
        should_run_agent tr ev ref fcs ce = false) ∧
    should_run_agent { tags := ["v*"] } {} "refs/heads/main" []
      (fun _ => .ok true) = false := by
  refine ⟨?_, ?_, by decide⟩
  · intro tr ref
    unfold tag_check
    by_cases hr : ref = "" <;> cases hb : tr.tags.isEmpty <;>
      cases hs : strStartsWith ref "refs/tags/" <;> simp [hb, hr, hs]
  · intro tr ev ref fcs ce htags href hs
    have htag : tag_check tr ref = false := by
      unfold tag_check
      simp [htags, href, hs]
    unfold should_run_agent
    rw [htag]
    simp

/-- C4 counterexample: with `files_changed_min = 1` configured and an event
whose commit list is empty, the total changed-file count is 0, which lies
below the minimum — the claim says `shouldRun` must be `false` — yet
`_should_run_agent` returns `true`: the whole bounds block is guarded by
`if ... event.commits:` and is skipped when the commit list is empty. -/
theorem c4_file_count_counterexample :
    totalFilesChanged [] = 0 ∧
    should_run_agent { files_changed_min := some 1 } { commits := some [] }
      "refs/heads/main" [] (fun _ => .ok true) = true :=
  ⟨rfl, by decide⟩

/-- C4 (amended): the file-count bounds are enforced only when the event
carries a non-empty commit list (and a bound configured as 0 is falsy in
Python and therefore ignored): under a non-empty commit list, a configured
non-zero minimum above the total or a configured non-zero maximum below
the total forces `_should_run_agent` to `false`, and a total within the
configured bounds passes the file-count category; with no (or an empty)
commit list the category is skipped and passes. -/
theorem c4_file_count_amended :
    (∀ (tr : TriggerCond) (ev : EventModel) (ref : String)
        (fcs : List FileChangeModel) (ce : String → Except String Bool),
        commitsTruthy ev.commits = true →
        optNatTruthy tr.files_changed_min = true →
        totalFilesChanged (ev.commits.getD []) < tr.files_changed_min.getD 0 →
        should_run_agent tr ev ref fcs ce = false) ∧
    (∀ (tr : TriggerCond) (ev : EventModel) (ref : String)
        (fcs : List FileChangeModel) (ce : String → Except String Bool),
        commitsTruthy ev.commits = true →
        optNatTruthy tr.files_changed_max = true →
        totalFilesChanged (ev.commits.getD []) > tr.files_changed_max.getD 0 →
        should_run_agent tr ev ref fcs ce = false) ∧
    (∀ (tr : TriggerCond) (ev : EventModel),
        (optNatTruthy tr.files_changed_min = true →
          tr.files_changed_min.getD 0 ≤ totalFilesChanged (ev.commits.getD [])) →
        (optNatTruthy tr.files_changed_max = true →
          totalFilesChanged (ev.commits.getD []) ≤ tr.files_changed_max.getD 0) →
        count_check tr ev = true) ∧
    (∀ (tr : TriggerCond) (ev : EventModel),
        commitsTruthy ev.commits = false → count_check tr ev = true) := by
  refine ⟨?_, ?_, ?_, ?_⟩
  · intro tr ev ref fcs ce hc hmin hlt
    have hcount : count_check tr ev = false := by
      unfold count_check
      rw [hc]
      simp [hmin, hlt]
    unfold should_run_agent
    rw [hcount]
    simp
  · intro tr ev ref fcs ce hc hmax hgt
    have hcount : count_check tr ev = false := by
      unfold count_check
      rw [hc]
      simp only [if_true]
      split_ifs with h1 h2
      · rfl
      · rfl
      · exact absurd (by simp [hmax]; omega) h2
    unfold should_run_agent
    rw [hcount]
    simp
  · intro tr ev hmin hmax
    unfold count_check
    by_cases hc : commitsTruthy ev.commits = true
    · rw [hc]
      simp only [if_true]
      split_ifs with h1 h2
      · simp only [Bool.and_eq_true, decide_eq_true_eq] at h1
        have := hmin h1.1
        omega
      · simp only [Bool.and_eq_true, decide_eq_true_eq] at h2
        have := hmax h2.1
        omega
      · rfl
    · simp at hc
      rw [hc]
      simp
  · intro tr ev hc
    unfold count_check
    rw [hc]
    simp

/-- C5: in `execute_branch_workflow`, when branch creation and output
materialisation succeed but nothing is staged (`commit_changes` returns
the empty SHA), the workflow returns `(None, None, None)`, raises nothing,
and its trace contains no push and no pull-request creation. -/
theorem c5_nothing_staged_clean_noop :
    ∀ (cfg : BranchCfg) (env : WorkflowEnv) (cur : String),
      cfg.enabled = true →
      env.getCurrentBranch = .ok cur →
      env.createBranch = .ok () →
      env.applyChanges = .ok () →
      env.commit = .ok "" →
      (execute_branch_workflow cfg env).1 = .ok (none, none, none) ∧
      (∀ n, GAction.push n ∉ (execute_branch_workflow cfg env).2) ∧
      (∀ h b, GAction.createPR h b ∉ (execute_branch_workflow cfg env).2) := by
  intro cfg env cur hen hcur hcb hac hcm
  have hbody : runBody cfg env =
      (.ok (none, none, none),
       [.getCurrentBranch,
        .createBranch (generate_branch_name cfg.branchPref env.uuidSuffix)
          (match cfg.target_branch with
           | some t => if t != "" then t else cur
           | none => cur),
        .applyChanges, .commit],
       some (match cfg.target_branch with
             | some t => if t != "" then t else cur
             | none => cur)) := by
    unfold runBody
    rw [hcur, hcb, hac, hcm]
    simp
  have hwf : execute_branch_workflow cfg env =
      ((.ok (none, none, none) : Except String WorkflowRes),
       [.getCurrentBranch,
        .createBranch (generate_branch_name cfg.branchPref env.uuidSuffix)
          (match cfg.target_branch with
           | some t => if t != "" then t else cur
           | none => cur),
        .applyChanges, .commit]) := by
    unfold execute_branch_workflow
    rw [hen, hbody]
    simp
  rw [hwf]
  refine ⟨rfl, ?_, ?_⟩
  · intro n
    simp
  · intro h b
    simp

/-- C5 witness: the concrete clean no-op run. -/
theorem c5_nothing_staged_witness :
    (execute_branch_workflow cfgFix envNothingStaged).1 = .ok (none, none, none) ∧
    (∀ n, GAction.push n ∉ (execute_branch_workflow cfgFix envNothingStaged).2) ∧
    (∀ h b, GAction.createPR h b ∉ (execute_branch_workflow cfgFix envNothingStaged).2) :=
  c5_nothing_staged_clean_noop cfgFix envNothingStaged "main" rfl rfl rfl rfl rfl

/-- C6: whenever the body of `execute_branch_workflow` raises after the new
branch was created (any later step: materialisation, commit, push or PR
creation) and the workspace still sits on the new branch, the workflow
attempts a checkout back to the base branch — whatever the outcome of that
checkout, which is swallowed — and re-raises the original error; the
caller (`execute_agent`) records that error as
`metadata['branch_automation_error']` on the execution result without
changing its success flag. -/
theorem c6_failure_rollback_and_reraise :
    ∀ (cfg : BranchCfg) (env : WorkflowEnv) (e : String)
      (tr : List GAction) (base : String),
      cfg.enabled = true →
      runBody cfg env = (.error e, tr, some base) →
      env.getCurrentBranchCleanup =
        .ok (generate_branch_name cfg.branchPref env.uuidSuffix) →
      (execute_branch_workflow cfg env).1 = .error e ∧
      GAction.checkoutBase base ∈ (execute_branch_workflow cfg env).2 ∧
      (∀ r : ExecResultModel,
        (record_branch_automation r (execute_branch_workflow cfg env).1).success
            = r.success ∧
        (record_branch_automation r
            (execute_branch_workflow cfg env).1).metadataBranchAutomationError
            = some e) := by
  intro cfg env e tr base hen hbody hclean
  have hwf : execute_branch_workflow cfg env =
      ((.error e : Except String WorkflowRes),
       tr ++ [.getCurrentBranch, .checkoutBase base]) := by
    unfold execute_branch_workflow
    rw [hen, hbody, hclean]
    simp
  rw [hwf]
  refine ⟨rfl, by simp, ?_⟩
  intro r
  exact ⟨rfl, rfl⟩

/-- C6 witness: a rejected push while on the new branch, with the rollback
checkout itself failing, still re-raises only the push error, attempts the
checkout back to `main`, and is recorded as metadata on a successful
execution result. -/
theorem c6_failure_rollback_witness :
    (execute_branch_workflow cfgFix envPushFail).1 = .error "push denied" ∧
    GAction.checkoutBase "main" ∈ (execute_branch_workflow cfgFix envPushFail).2 ∧
    (∀ r : ExecResultModel,
      (record_branch_automation r (execute_branch_workflow cfgFix envPushFail).1).success
          = r.success ∧
      (record_branch_automation r
          (execute_branch_workflow cfgFix envPushFail).1).metadataBranchAutomationError
          = some "push denied") :=
  c6_failure_rollback_and_reraise cfgFix envPushFail "push denied"
    [.getCurrentBranch, .createBranch "agent-fix-deadbeef" "main",
     .applyChanges, .commit, .push "agent-fix-deadbeef"]
    "main" rfl rfl rfl

/-- C8: routing to `status_check` resolves the posted state by scanning the
output case-insensitively — a configured failure keyword forces `failure`
even when a success keyword also occurs; with no failure keyword present
and success keywords configured but absent the state is `error`; otherwise
it is `success`.  The final conjunct shows failure beating success on a
concrete output containing both kinds of keyword. -/
theorem c8_status_state_resolution :
    (∀ (failureOn successOn : List String) (out : String),
        failureOn.any (fun k => containsSub (strToLower out) (strToLower k)) = true →
        determine_status_state failureOn successOn out = "failure") ∧
    (∀ (failureOn successOn : List String) (out : String),
        failureOn.any (fun k => containsSub (strToLower out) (strToLower k)) = false →
        successOn.isEmpty = false →
        successOn.any (fun k => containsSub (strToLower out) (strToLower k)) = false →
        determine_status_state failureOn successOn out = "error") ∧
    (∀ (failureOn successOn : List String) (out : String),
        failureOn.any (fun k => containsSub (strToLower out) (strToLower k)) = false →
        (successOn.isEmpty = true ∨
          successOn.any (fun k => containsSub (strToLower out) (strToLower k)) = true) →
        determine_status_state failureOn successOn out = "success") ∧
    determine_status_state ["fail"] ["pass"] "Tests PASS but one check FAILed"
      = "failure" := by
  refine ⟨?_, ?_, ?_, by decide⟩
  · intro failureOn successOn out hf
    have hne : failureOn.isEmpty = false := by
      cases failureOn with
      | nil => simp at hf
      | cons a l => rfl
    unfold determine_status_state
    simp [hf, hne]
  · intro failureOn successOn out hf hne hs
    unfold determine_status_state
    simp [hf, hne, hs]
  · intro failureOn successOn out hf hsor
    unfold determine_status_state
    rcases hsor with hse | hsa
    · simp [hf, hse]
    · simp [hf, hsa]

/-- C9: the discovery cache keeps one process-wide timestamp shared by all
`(event type, agents directory)` keys.  (a) Every discovery that stores
results overwrites that single timestamp with the current time.  (b) A
lookup is served from the cache exactly when the key is cached and the
time elapsed since the most recent store FOR ANY KEY is below the TTL —
`_is_cache_valid` compares against the shared timestamp only.  (c) A
cache-valid lookup returns the cached list and leaves the state untouched.
(d) Refreshing one key renews the freshness of every cached key.  (e) In a
concrete run with TTL 300, a key stored at time 0 is still served at time
500 because another key was stored at time 400. -/
theorem c9_cache_shared_timestamp :
    (∀ (st : AgentCache) (now : Int) (key : String) (fresh : List Nat),
        is_cache_valid st now key = false →
        ((discover_agents st now key true fresh).2).timestamp = now) ∧
    (∀ (st : AgentCache) (now : Int) (key : String),
        is_cache_valid st now key =
          (cacheHasKey st.cache key && decide (now - st.timestamp < st.ttl))) ∧
    (∀ (st : AgentCache) (now : Int) (key : String) (fresh : List Nat),
        is_cache_valid st now key = true →
        discover_agents st now key true fresh = (cacheGet st.cache key, st)) ∧
    (∀ (st : AgentCache) (now now2 : Int) (key key2 : String) (fresh : List Nat),
        is_cache_valid st now key = false →
        cacheHasKey ((discover_agents st now key true fresh).2).cache key2 = true →
        now2 - now < st.ttl →
        is_cache_valid ((discover_agents st now key true fresh).2) now2 key2 = true) ∧
    (is_cache_valid cacheAfterTwoStores 500 "push:/ws/.github/agents" = true ∧
      (discover_agents cacheAfterTwoStores 500 "push:/ws/.github/agents" true [9]).1
        = [1]) := by
  refine ⟨?_, ?_, ?_, ?_, by decide, by decide⟩
  · intro st now key fresh hinv
    unfold discover_agents
    rw [hinv]
    simp
  · intro st now key
    unfold is_cache_valid
    cases hk : cacheHasKey st.cache key <;> simp [hk]
  · intro st now key fresh hval
    unfold discover_agents
    rw [hval]
    simp
  · intro st now now2 key key2 fresh hinv hkey2 hfresh
    unfold discover_agents at hkey2 ⊢
    rw [hinv] at hkey2 ⊢
    simp only [Bool.false_eq_true, if_false, Bool.not_true, if_true] at hkey2 ⊢
    unfold is_cache_valid
    simp only at hkey2 ⊢
    rw [hkey2]
    simpa using hfresh

/-- C7 counterexample: with changed files `["a/b.py","c.py"]` BOTH present
in the workspace, `include("$CHANGED_FILES")` does not always emit two
`<!-- File: ... -->` blocks: when `a/b.py` exists but is empty, its block
is skipped (`if content.strip():`), and only one marker is emitted. -/
theorem c7_include_files_counterexample :
    fileExists fsEmptyFirst "a/b.py" = true ∧
    fileExists fsEmptyFirst "c.py" = true ∧
    countSub (include_files fsEmptyFirst ["a/b.py", "c.py"] "/workspace" "$CHANGED_FILES")
      "<!-- File: " = 1 :=
  ⟨by decide, by decide, by decide⟩

/-- C7 (amended): `include("$CHANGED_FILES")` with changed files
`["a/b.py","c.py"]`, both present in the workspace AND both with
non-whitespace content, returns exactly the `a/b.py` block followed by the
`c.py` block (two `<!-- File: ... -->` markers, `a/b.py` first; a
whitespace-only file would be skipped entirely).  Matches of the
substituted patterns are deduplicated (a duplicated changed file still
yields one block) and emitted sorted lexicographically by
workspace-relative path, and an unreadable file contributes an inline
error comment instead of aborting the render. -/
theorem c7_include_files_amended :
    (∀ (ca cb : String), strTrim ca ≠ "" → strTrim cb ≠ "" →
        include_files [("a/b.py", .ok ca), ("c.py", .ok cb)]
            ["a/b.py", "c.py"] "/workspace" "$CHANGED_FILES"
          = String.intercalate "\n"
              ["<!-- File: a/b.py -->", ca, "", "<!-- File: c.py -->", cb, ""]) ∧
    (countSub (include_files fsBothFull ["a/b.py", "c.py"] "/workspace" "$CHANGED_FILES")
        "<!-- File: " = 2 ∧
      include_files fsBothFull ["a/b.py", "c.py"] "/workspace" "$CHANGED_FILES"
        = "<!-- File: a/b.py -->\nx = 1\n\n\n<!-- File: c.py -->\ny = 2\n\n") ∧
    (countSub (include_files fsBothFull ["c.py", "c.py"] "/workspace" "$CHANGED_FILES")
        "<!-- File: " = 1) ∧
    (∀ (e cb : String), strTrim cb ≠ "" →
        include_files [("a/b.py", .error e), ("c.py", .ok cb)]
            ["a/b.py", "c.py"] "/workspace" "$CHANGED_FILES"
          = String.intercalate "\n"
              ["<!-- Error reading file: a/b.py - " ++ e ++ " -->",
               "<!-- File: c.py -->", cb, ""]) := by
  refine ⟨?_, ⟨by decide, by decide⟩, by decide, ?_⟩
  · intro ca cb hca hcb
    have hca' : (strTrim ca != "") = true := by simpa using hca
    have hcb' : (strTrim cb != "") = true := by simpa using hcb
    have e1 : render_file_entry [("a/b.py", .ok ca), ("c.py", .ok cb)] "a/b.py"
        = ["<!-- File: " ++ "a/b.py" ++ " -->", ca, ""] := by
      show (if (strTrim ca != "") = true
          then ["<!-- File: " ++ "a/b.py" ++ " -->", ca, ""] else []) = _
      rw [if_pos hca']
    have e2 : render_file_entry [("a/b.py", .ok ca), ("c.py", .ok cb)] "c.py"
        = ["<!-- File: " ++ "c.py" ++ " -->", cb, ""] := by
      show (if (strTrim cb != "") = true
          then ["<!-- File: " ++ "c.py" ++ " -->", cb, ""] else []) = _
      rw [if_pos hcb']
    have hmat : sortStrings (find_matching_files
        [("a/b.py", .ok ca), ("c.py", .ok cb)]
        (resolve_pattern_variables "/workspace" ["a/b.py", "c.py"] "$CHANGED_FILES"))
        = ["a/b.py", "c.py"] := rfl
    simp only [include_files]
    rw [hmat]
    simp only [List.flatMap_cons, List.flatMap_nil, List.append_nil]
    rw [e1, e2]
    rfl
  · intro e cb hcb
    have hcb' : (strTrim cb != "") = true := by simpa using hcb
    have e2 : render_file_entry [("a/b.py", .error e), ("c.py", .ok cb)] "c.py"
        = ["<!-- File: " ++ "c.py" ++ " -->", cb, ""] := by
      show (if (strTrim cb != "") = true
          then ["<!-- File: " ++ "c.py" ++ " -->", cb, ""] else []) = _
      rw [if_pos hcb']
    have e1 : render_file_entry [("a/b.py", .error e), ("c.py", .ok cb)] "a/b.py"
        = ["<!-- Error reading file: " ++ "a/b.py" ++ " - " ++ e ++ " -->"] := rfl
    have hmat : sortStrings (find_matching_files
        [("a/b.py", .error e), ("c.py", .ok cb)]
        (resolve_pattern_variables "/workspace" ["a/b.py", "c.py"] "$CHANGED_FILES"))
        = ["a/b.py", "c.py"] := rfl
    simp only [include_files]
    rw [hmat]
    simp only [List.flatMap_cons, List.flatMap_nil, List.append_nil]
    rw [e1, e2]
    rfl

/-- C10: a matched file whose content is empty or whitespace-only
contributes nothing to `include_files`' output.  (a) A readable file with
whitespace-only content renders to no lines at all — no marker, no content,
no error comment.  (b) Every per-file rendering is one of: a marker block
for a readable non-whitespace file, nothing, or a single inline error
comment for an unreadable file — so a `<!-- File: ... -->` marker arises
only from a matched file with non-whitespace content.  (c) Concretely,
with `a.py` containing only whitespace and `b.py` containing `hi`,
`include("$CHANGED_FILES")` emits exactly the `b.py` block. -/
theorem c10_whitespace_files_skipped :
    (∀ (fs : WorkspaceFS) (p : String) (c : String),
        readFile fs p = .ok c → strTrim c = "" → render_file_entry fs p = []) ∧
    (∀ (fs : WorkspaceFS) (p : String),
        (∃ c, readFile fs p = .ok c ∧ strTrim c ≠ "" ∧
          render_file_entry fs p = ["<!-- File: " ++ p ++ " -->", c, ""]) ∨
        render_file_entry fs p = [] ∨
        (∃ e, readFile fs p = .error e ∧
          render_file_entry fs p =
            ["<!-- Error reading file: " ++ p ++ " - " ++ e ++ " -->"])) ∧
    include_files fsWhitespaceFirst ["a.py", "b.py"] "/ws" "$CHANGED_FILES"
      = "<!-- File: b.py -->" ++ "\n" ++ "hi" ++ "\n" := by
  refine ⟨?_, ?_, by decide⟩
  · intro fs p c hread htrim
    unfold render_file_entry
    rw [hread]
    simp [htrim]
  · intro fs p
    unfold render_file_entry
    cases hread : readFile fs p with
    | ok c =>
        by_cases htrim : strTrim c = ""
        · right; left
          simp [htrim]
        · left
          exact ⟨c, rfl, htrim, by simp [htrim]⟩
    | error e =>
        right; right
        exact ⟨e, rfl, rfl⟩

end Gitagent
